import Mathlib

/-!
# Verification of the SCAR Tournament Judge Portal scoring core

Shallow embedding of the judge-scoring logic of `src/server/index.js` and
`src/unnamed/part_000` (the PostgreSQL-backed variant of the same server):
the pure match resolver `calculateMatchResult`, the scorecard store
(a JS object keyed by match id, here an association list), the
`POST /api/matches/:matchId/scores` submission handler, and the
`DELETE /api/matches/:matchId/scores/:judgeId` handler.

JS objects with string keys are modelled as insertion-ordered association
lists (`objGet`/`objSet`/`objDelete` mirror property read, property write and
`delete`).  JS numbers that the code only adds and compares are modelled as
`Int`; the `parseInt` round trip on `koVotes` keys is the identity for the
integer competitor ids, so tally keys are kept as `Int` directly.  JS
truthiness of `koWinnerId` (`null` and `0` are falsy) is modelled by
`truthyId`.  The outbound `reportToChallonge` call is modelled by a boolean
outcome parameter: `true` means the Challonge PUT succeeded, `false` means it
threw (the route's `catch` then answers 500).
-/

set_option autoImplicit false

namespace ScarJudging

/-- The per-criterion shares a judge awards competitor A
(`scores = { aggression, damage, control }` in the request body). -/
structure Scores where
  aggression : Int
  damage : Int
  control : Int
deriving DecidableEq

/-- One judge's stored entry: `judgeScores[matchId].judges[judgeId]`.
`scores` is `null` (`none`) for a KO scorecard; `submittedAt` models the
`new Date().toISOString()` timestamp as an abstract tick. -/
structure JudgeCard where
  scores : Option Scores
  isKO : Bool
  koWinnerId : Option Int
  submittedAt : Nat
deriving DecidableEq

/-- The computed match result object returned by `calculateMatchResult`.
The points branch produces no `koVotes` key, hence the `Option`. -/
structure MatchResult where
  winnerId : Int
  winMethod : String
  scoreA : Int
  scoreB : Int
  koVotes : Option Nat
deriving DecidableEq

/-- A Match Scoring Record: `judgeScores[matchId]` (or one `judge_scores`
row in the PostgreSQL variant). -/
structure MatchRecord where
  tournamentId : String
  competitorAId : Int
  competitorBId : Int
  judges : List (String × JudgeCard)
  finalized : Bool
  result : Option MatchResult
deriving DecidableEq

/-! ## JS-object operations (string-keyed, insertion ordered) -/

/-- Property read `m[k]`: first binding for key `k`, if any. -/
def objGet {α : Type} : List (String × α) → String → Option α
  | [], _ => none
  | (k', v) :: rest, k => if k' = k then some v else objGet rest k

/-- Property write `m[k] = v`: replace in place if the key is present
(JS keeps the original key position), append otherwise. -/
def objSet {α : Type} : List (String × α) → String → α → List (String × α)
  | [], k, v => [(k, v)]
  | (k', v') :: rest, k, v =>
    if k' = k then (k, v) :: rest else (k', v') :: objSet rest k v

/-- `delete m[k]`: drop the binding(s) for `k`. -/
def objDelete {α : Type} (m : List (String × α)) (k : String) : List (String × α) :=
  m.filter (fun p => p.1 != k)

/-! ## The match resolver `calculateMatchResult` -/

/-- JS truthiness of the stored `koWinnerId`: `null` and `0` are falsy,
every other number is truthy. -/
def truthyId : Option Int → Option Int
  | none => none
  | some k => if k = 0 then none else some k

/-- The KO vote a judge contributes: the guard
`judge.isKO && judge.koWinnerId` in `calculateMatchResult`. -/
def koVoteOf (j : JudgeCard) : Option Int :=
  if j.isKO then truthyId j.koWinnerId else none

/-- `koVotes[k] = (koVotes[k] || 0) + 1` on the tally object:
increment in place if present, append `(k, 1)` otherwise. -/
def bump : List (Int × Nat) → Int → List (Int × Nat)
  | [], k => [(k, 1)]
  | (k', n) :: rest, k =>
    if k' = k then (k', n + 1) :: rest else (k', n) :: bump rest k

/-- The `judges.forEach` loop building the `koVotes` object. -/
def koTallyAux : List JudgeCard → List (Int × Nat) → List (Int × Nat)
  | [], acc => acc
  | j :: rest, acc =>
    koTallyAux rest
      (match koVoteOf j with
       | some k => bump acc k
       | none => acc)

/-- The complete `koVotes` tally, in first-vote insertion order. -/
def koTally (js : List JudgeCard) : List (Int × Nat) := koTallyAux js []

/-- The `for (const [winnerId, votes] of Object.entries(koVotes))` loop:
the first tally entry with at least 2 votes, if any. -/
def findKoMajority (t : List (Int × Nat)) : Option (Int × Nat) :=
  t.find? (fun p => decide (2 ≤ p.2))

/-- `judge.scores.aggression + judge.scores.damage + judge.scores.control`. -/
def cardPointsA (s : Scores) : Int := s.aggression + s.damage + s.control

/-- The `judges.forEach` loop accumulating `totalA` and `totalB`; a judge
without a `scores` object (a KO scorecard) contributes to neither total. -/
def pointsTotalsAux : List JudgeCard → Int × Int → Int × Int
  | [], t => t
  | j :: rest, t =>
    pointsTotalsAux rest
      (match j.scores with
       | some s => (t.1 + cardPointsA s, t.2 + (11 - cardPointsA s))
       | none => t)

/-- `(totalA, totalB)` over a list of judge entries. -/
def pointsTotals (js : List JudgeCard) : Int × Int := pointsTotalsAux js (0, 0)

/-- `Object.values(matchData.judges)`. -/
def judgeCards (m : MatchRecord) : List JudgeCard := m.judges.map Prod.snd

/-- `calculateMatchResult(matchData)`: KO-majority check first (any
competitor with ≥ 2 KO votes wins by `ko` with both scores 0), otherwise the
points fallback with `winnerId = totalA > totalB ? competitorAId :
competitorBId`. -/
def calculateMatchResult (matchData : MatchRecord) : MatchResult :=
  match findKoMajority (koTally (judgeCards matchData)) with
  | some (w, v) =>
      { winnerId := w, winMethod := "ko", scoreA := 0, scoreB := 0,
        koVotes := some v }
  | none =>
      let t := pointsTotals (judgeCards matchData)
      { winnerId := if t.1 > t.2 then matchData.competitorAId
                    else matchData.competitorBId,
        winMethod := "points", scoreA := t.1, scoreB := t.2, koVotes := none }

/-! ## The Match Lifecycle Controller: the scoring routes

`POST /api/matches/:matchId/scores` exists in two variants:
the purely in-memory server (`src/server/index.js`, where
`judgeScores[matchId]` is mutated in place, so the judge-entry write is
visible in the store even when `reportToChallonge` later throws), and the
PostgreSQL-backed server (`src/unnamed/part_000`, where the loaded row is a
local copy and reaches storage only at an explicit
`saveJudgeScoresToStorage`, which the finalize branch performs only after
`reportToChallonge` has returned). -/

/-- The request body of `POST /api/matches/:matchId/scores`. -/
structure SubmitReq where
  judgeId : String
  tournamentId : String
  competitorAId : Int
  competitorBId : Int
  scores : Option Scores
  isKO : Bool
  koWinnerId : Option Int
deriving DecidableEq

/-- The submission route's response: `ok` is the 200 JSON
`{ success:true, judgeCount, finalized, result? }`; `serverError` is the
500 answered by the route's `catch` when `reportToChallonge` throws. -/
inductive SubmitResp where
  | ok (judgeCount : Nat) (finalized : Bool) (result : Option MatchResult)
  | serverError
deriving DecidableEq

/-- The scorecard store: the `judgeScores` object (or the `judge_scores`
table), keyed by match id. -/
abbrev Store := List (String × MatchRecord)

/-- The record created on a match's first submission, fields taken from the
request body. -/
def freshRecord (req : SubmitReq) : MatchRecord :=
  { tournamentId := req.tournamentId, competitorAId := req.competitorAId,
    competitorBId := req.competitorBId, judges := [], finalized := false,
    result := none }

/-- `matchScores.judges[judgeId] = { scores, isKO, koWinnerId, submittedAt }`. -/
def upsertJudge (m : MatchRecord) (req : SubmitReq) (now : Nat) : MatchRecord :=
  { m with
    judges := objSet m.judges req.judgeId
      { scores := req.scores, isKO := req.isKO, koWinnerId := req.koWinnerId,
        submittedAt := now } }

/-- `POST /api/matches/:matchId/scores`, in-memory variant
(`src/server/index.js`).  The judge entry is written into the aliased stored
object before the finalize check, so it persists on every branch; `finalized`
and `result` are only set after `reportToChallonge` returns, so a failed
report (`reportOk = false`) leaves the record un-finalized and answers 500. -/
def submitScoreMem (store : Store) (matchId : String) (req : SubmitReq)
    (now : Nat) (reportOk : Bool) : Store × SubmitResp :=
  let r0 := (objGet store matchId).getD (freshRecord req)
  let r1 := upsertJudge r0 req now
  let judgeCount := r1.judges.length
  if 3 ≤ judgeCount ∧ r1.finalized = false then
    let result := calculateMatchResult r1
    if reportOk then
      (objSet store matchId { r1 with finalized := true, result := some result },
       .ok judgeCount true (some result))
    else
      (objSet store matchId r1, .serverError)
  else
    (objSet store matchId r1, .ok judgeCount false none)

/-- `POST /api/matches/:matchId/scores`, PostgreSQL variant
(`src/unnamed/part_000`).  The loaded row is a local copy; on the finalize
branch `saveJudgeScoresToStorage` runs only after `reportToChallonge`
succeeds, so a failed report leaves the stored row entirely unchanged (the
3rd judge's entry is lost).  The subsequent `saveJudgeBreakdownToChallonge`
catches its own errors and never throws. -/
def submitScoreDb (store : Store) (matchId : String) (req : SubmitReq)
    (now : Nat) (reportOk : Bool) : Store × SubmitResp :=
  let r0 := (objGet store matchId).getD (freshRecord req)
  let r1 := upsertJudge r0 req now
  let judgeCount := r1.judges.length
  if 3 ≤ judgeCount ∧ r1.finalized = false then
    let result := calculateMatchResult r1
    if reportOk then
      (objSet store matchId { r1 with finalized := true, result := some result },
       .ok judgeCount true (some result))
    else
      (store, .serverError)
  else
    (objSet store matchId r1, .ok judgeCount false none)

/-- The delete route's response: 200, 400 `Match already finalized`,
or 404 `Score not found`. -/
inductive DeleteResp where
  | ok
  | alreadyFinalized
  | notFound
deriving DecidableEq

/-- `DELETE /api/matches/:matchId/scores/:judgeId`: guard on `finalized`,
then delete the judge's entry if present (404 otherwise).  A missing record
falls through both optional-chaining guards to the 404. -/
def deleteScore (store : Store) (matchId judgeId : String) :
    Store × DeleteResp :=
  match objGet store matchId with
  | none => (store, .notFound)
  | some r =>
    if r.finalized then (store, .alreadyFinalized)
    else
      match objGet r.judges judgeId with
      | some _ =>
        (objSet store matchId { r with judges := objDelete r.judges judgeId },
         .ok)
      | none => (store, .notFound)

/-! ## Interleaving model of two concurrent submissions (PostgreSQL variant)

Each `await` in the route handler is a yield point of the Node event loop.
For the PostgreSQL variant the shared-state-relevant awaits are the row load
(`getJudgeScoresFromStorage`), the row save (`saveJudgeScoresToStorage`) and
the outbound `reportToChallonge` call; the code between two awaits runs
atomically.  `Phase` is a request's continuation at its next await. -/

inductive Phase where
  /-- About to `await getJudgeScoresFromStorage`; the post-load synchronous
  code (judge upsert, count, finalize check, result computation) runs in the
  same atomic step, up to the next await. -/
  | toLoad
  /-- Non-finalize branch: about to `await saveJudgeScoresToStorage` with the
  local row, then answer `{ finalized:false }`. -/
  | toSave (localRec : MatchRecord) (cnt : Nat)
  /-- Finalize branch: about to `await reportToChallonge`. -/
  | toReport (localRec : MatchRecord) (res : MatchResult) (cnt : Nat)
  /-- Report returned: `finalized`/`result` set on the local row, about to
  `await saveJudgeScoresToStorage` (the attachment call that follows touches
  no shared state), then answer `{ finalized:true }`. -/
  | toSaveFinal (localRec : MatchRecord) (res : MatchResult) (cnt : Nat)
  /-- Response sent. -/
  | finished (resp : SubmitResp)
deriving DecidableEq

/-- One atomic step of a single request against the shared store.  Returns
the new store, the request's next phase, the number of `reportToChallonge`
calls issued (0 or 1) and the number of `finalized:true` responses sent
(0 or 1) in this step. -/
def stepOne (store : Store) (matchId : String) (ph : Phase) (req : SubmitReq)
    (now : Nat) (reportOk : Bool) : Store × Phase × Nat × Nat :=
  match ph with
  | .toLoad =>
    let r0 := (objGet store matchId).getD (freshRecord req)
    let r1 := upsertJudge r0 req now
    let cnt := r1.judges.length
    if 3 ≤ cnt ∧ r1.finalized = false then
      (store, .toReport r1 (calculateMatchResult r1) cnt, 0, 0)
    else
      (store, .toSave r1 cnt, 0, 0)
  | .toSave r c =>
    (objSet store matchId r, .finished (.ok c false none), 0, 0)
  | .toReport r res c =>
    if reportOk then
      (store, .toSaveFinal { r with finalized := true, result := some res } res c,
       1, 0)
    else
      (store, .finished .serverError, 1, 0)
  | .toSaveFinal r res c =>
    (objSet store matchId r, .finished (.ok c true (some res)), 0, 1)
  | .finished resp => (store, .finished resp, 0, 0)

/-- Two in-flight submissions to the same match, with the shared store and
running counts of report calls and `finalized:true` responses. -/
structure ConcSys where
  store : Store
  matchId : String
  reqA : SubmitReq
  reqB : SubmitReq
  nowA : Nat
  nowB : Nat
  reportOkA : Bool
  reportOkB : Bool
  phaseA : Phase
  phaseB : Phase
  reportCalls : Nat
  finalizedResponses : Nat
deriving DecidableEq

/-- Run one atomic step of request A (`true`) or request B (`false`). -/
def stepSys (s : ConcSys) (which : Bool) : ConcSys :=
  if which then
    let o := stepOne s.store s.matchId s.phaseA s.reqA s.nowA s.reportOkA
    { s with store := o.1, phaseA := o.2.1,
             reportCalls := s.reportCalls + o.2.2.1,
             finalizedResponses := s.finalizedResponses + o.2.2.2 }
  else
    let o := stepOne s.store s.matchId s.phaseB s.reqB s.nowB s.reportOkB
    { s with store := o.1, phaseB := o.2.1,
             reportCalls := s.reportCalls + o.2.2.1,
             finalizedResponses := s.finalizedResponses + o.2.2.2 }

/-- Run a schedule: the event loop dispatches the listed request at each
step. -/
def runSched (s : ConcSys) : List Bool → ConcSys
  | [] => s
  | w :: ws => runSched (stepSys s w) ws

/-! ## Lemmas about the KO-vote tally -/

/-- Vote lookup in the tally object, 0 when the key is absent. -/
def tLookup : List (Int × Nat) → Int → Nat
  | [], _ => 0
  | (k, n) :: rest, w => if k = w then n else tLookup rest w

/-- The number of KO votes a list of judge entries casts for `w`: the judges
whose entry passes the `judge.isKO && judge.koWinnerId` guard with winner
`w`. -/
def voteCount (js : List JudgeCard) (w : Int) : Nat :=
  js.countP (fun j => decide (koVoteOf j = some w))

/-- The key list of a tally object. -/
def tKeys (t : List (Int × Nat)) : List Int := t.map Prod.fst

theorem tLookup_bump_self (t : List (Int × Nat)) (k : Int) :
    tLookup (bump t k) k = tLookup t k + 1 := by
  induction t with
  | nil => simp [bump, tLookup]
  | cons p rest ih =>
    obtain ⟨k', n⟩ := p
    by_cases h : k' = k
    · subst h; simp [bump, tLookup]
    · simp [bump, tLookup, h, ih]

theorem tLookup_bump_ne (t : List (Int × Nat)) {k w : Int} (h : k ≠ w) :
    tLookup (bump t k) w = tLookup t w := by
  induction t with
  | nil => simp [bump, tLookup, h]
  | cons p rest ih =>
    obtain ⟨k', n⟩ := p
    by_cases hk : k' = k
    · subst hk
      have : k' ≠ w := h
      simp [bump, tLookup, this]
    · by_cases hw : k' = w
      · subst hw; simp [bump, tLookup, hk]
      · simp [bump, tLookup, hk, hw, ih]

theorem voteCount_nil (w : Int) : voteCount [] w = 0 := rfl

theorem voteCount_cons (j : JudgeCard) (rest : List JudgeCard) (w : Int) :
    voteCount (j :: rest) w =
      voteCount rest w + (if koVoteOf j = some w then 1 else 0) := by
  simp [voteCount, List.countP_cons]

theorem tLookup_koTallyAux (js : List JudgeCard) (acc : List (Int × Nat))
    (w : Int) :
    tLookup (koTallyAux js acc) w = tLookup acc w + voteCount js w := by
  induction js generalizing acc with
  | nil => simp [koTallyAux, voteCount]
  | cons j rest ih =>
    rw [voteCount_cons]
    cases hkv : koVoteOf j with
    | none =>
      simp [koTallyAux, hkv, ih]
    | some k =>
      simp only [koTallyAux, hkv, ih]
      by_cases hw : k = w
      · subst hw
        rw [tLookup_bump_self]
        simp
        omega
      · rw [tLookup_bump_ne _ hw]
        have hne : ¬((some k : Option Int) = some w) := by
          simp only [Option.some.injEq]
          exact hw
        rw [if_neg hne]
        omega

theorem tKeys_bump (t : List (Int × Nat)) (k : Int) :
    tKeys (bump t k) = if k ∈ tKeys t then tKeys t else tKeys t ++ [k] := by
  induction t with
  | nil => simp [bump, tKeys]
  | cons p rest ih =>
    obtain ⟨k', n⟩ := p
    by_cases hk : k' = k
    · subst hk
      simp [bump, tKeys]
    · have hk' : k ≠ k' := fun h => hk h.symm
      simp only [bump, hk, if_false]
      show k' :: tKeys (bump rest k) = _
      rw [ih]
      by_cases hmem : k ∈ tKeys rest
      · simp only [tKeys, List.map_cons] at hmem ⊢
        simp [hmem, hk']
      · simp only [tKeys, List.map_cons] at hmem ⊢
        simp [hmem, hk']

theorem nodup_tKeys_bump {t : List (Int × Nat)} (k : Int)
    (h : (tKeys t).Nodup) : (tKeys (bump t k)).Nodup := by
  rw [tKeys_bump]
  by_cases hmem : k ∈ tKeys t
  · rwa [if_pos hmem]
  · rw [if_neg hmem, List.nodup_append]
    refine ⟨h, List.nodup_singleton k, ?_⟩
    intro a ha hb
    simp only [List.mem_singleton] at hb
    subst hb
    exact hmem ha

theorem nodup_tKeys_koTallyAux (js : List JudgeCard)
    (acc : List (Int × Nat)) (h : (tKeys acc).Nodup) :
    (tKeys (koTallyAux js acc)).Nodup := by
  induction js generalizing acc with
  | nil => simpa [koTallyAux] using h
  | cons j rest ih =>
    cases hkv : koVoteOf j with
    | none => simpa [koTallyAux, hkv] using ih acc h
    | some k =>
      simpa [koTallyAux, hkv] using ih (bump acc k) (nodup_tKeys_bump k h)

theorem tLookup_eq_of_mem {t : List (Int × Nat)} {k : Int} {n : Nat}
    (hnd : (tKeys t).Nodup) (hmem : (k, n) ∈ t) : tLookup t k = n := by
  induction t with
  | nil => simp at hmem
  | cons p rest ih =>
    obtain ⟨k', n'⟩ := p
    simp only [tKeys, List.map_cons, List.nodup_cons] at hnd
    rcases List.mem_cons.mp hmem with h | h
    · simp only [Prod.mk.injEq] at h
      obtain ⟨h1, h2⟩ := h
      subst h1; subst h2
      simp [tLookup]
    · by_cases hk : k' = k
      · exfalso
        apply hnd.1
        subst hk
        simpa [tKeys] using List.mem_map_of_mem Prod.fst h
      · simpa [tLookup, hk] using ih (by simpa [tKeys] using hnd.2) h

theorem mem_of_tLookup_pos {t : List (Int × Nat)} {w : Int}
    (h : tLookup t w ≠ 0) : (w, tLookup t w) ∈ t := by
  induction t with
  | nil => simp [tLookup] at h
  | cons p rest ih =>
    obtain ⟨k, n⟩ := p
    by_cases hk : k = w
    · subst hk
      simp [tLookup]
    · simp only [tLookup, hk, if_false] at h ⊢
      exact List.mem_cons_of_mem _ (ih h)

theorem voteCount_add_le (js : List JudgeCard) {w w' : Int} (h : w ≠ w') :
    voteCount js w + voteCount js w' ≤ js.length := by
  induction js with
  | nil => simp [voteCount]
  | cons j rest ih =>
    rw [voteCount_cons, voteCount_cons]
    simp only [List.length_cons]
    by_cases h1 : koVoteOf j = some w
    · have h2 : ¬(koVoteOf j = some w') := by
        rw [h1]
        simp only [Option.some.injEq]
        exact h
      rw [if_pos h1, if_neg h2]
      omega
    · rw [if_neg h1]
      by_cases h2 : koVoteOf j = some w'
      · rw [if_pos h2]
        omega
      · rw [if_neg h2]
        omega

theorem find_eq_of_unique {α : Type} (p : α → Bool) (l : List α) (x : α)
    (hx : x ∈ l) (hpx : p x = true)
    (hu : ∀ y ∈ l, p y = true → y = x) : l.find? p = some x := by
  induction l with
  | nil => simp at hx
  | cons a rest ih =>
    cases hpa : p a with
    | true =>
      have : a = x := hu a (List.mem_cons_self a rest) hpa
      subst this
      simp [List.find?, hpa]
    | false =>
      have hxr : x ∈ rest := by
        rcases List.mem_cons.mp hx with h | h
        · subst h; rw [hpx] at hpa; exact absurd hpa (by simp)
        · exact h
      simpa [List.find?, hpa] using
        ih hxr (fun y hy hpy => hu y (List.mem_cons_of_mem _ hy) hpy)

/-- With 3 scorecards, a competitor holding at least 2 KO votes is the unique
tally entry with 2 or more votes, and the `Object.entries` scan finds it. -/
theorem findKoMajority_of_majority (js : List JudgeCard) (w : Int)
    (h3 : js.length = 3) (hv : 2 ≤ voteCount js w) :
    findKoMajority (koTally js) = some (w, voteCount js w) := by
  have hlw : ∀ k, tLookup (koTally js) k = voteCount js k := by
    intro k
    simpa [koTally, tLookup] using tLookup_koTallyAux js [] k
  have hmem : (w, voteCount js w) ∈ koTally js := by
    have hne : tLookup (koTally js) w ≠ 0 := by rw [hlw]; omega
    have := mem_of_tLookup_pos hne
    rwa [hlw] at this
  have hnd : (tKeys (koTally js)).Nodup :=
    nodup_tKeys_koTallyAux js [] (by simp [tKeys])
  apply find_eq_of_unique
  · exact hmem
  · simpa using hv
  · rintro ⟨k, n⟩ hmem' hp
    have hn : n = voteCount js k := by
      have := tLookup_eq_of_mem hnd hmem'
      rw [hlw] at this; omega
    have h2n : 2 ≤ n := by simpa using hp
    by_cases hkw : k = w
    · subst hkw
      simp [hn]
    · exfalso
      have := voteCount_add_le js hkw
      rw [h3] at this
      omega

/-! ## Lemmas about the points fallback -/

/-- The number of judge entries carrying a `scores` object (the ones the
points loop counts). -/
def scoredCount (js : List JudgeCard) : Nat :=
  js.countP (fun j => j.scores.isSome)

theorem scoredCount_nil : scoredCount [] = 0 := rfl

theorem scoredCount_cons (j : JudgeCard) (rest : List JudgeCard) :
    scoredCount (j :: rest) =
      scoredCount rest + (if j.scores.isSome then 1 else 0) := by
  simp [scoredCount, List.countP_cons]

/-- Each counted scorecard adds `judgeScoreA + (11 - judgeScoreA) = 11` to
the running totals; uncounted ones add nothing. -/
theorem pointsTotalsAux_sum (js : List JudgeCard) (t : Int × Int) :
    (pointsTotalsAux js t).1 + (pointsTotalsAux js t).2 =
      t.1 + t.2 + 11 * (scoredCount js : Int) := by
  induction js generalizing t with
  | nil => simp [pointsTotalsAux, scoredCount]
  | cons j rest ih =>
    rw [scoredCount_cons]
    cases hs : j.scores with
    | none =>
      simp only [pointsTotalsAux, hs, ih, Option.isSome_none]
      push_cast
      ring
    | some s =>
      simp only [pointsTotalsAux, hs, ih, Option.isSome_some]
      push_cast
      ring

theorem pointsTotals_sum (js : List JudgeCard) :
    (pointsTotals js).1 + (pointsTotals js).2 = 11 * (scoredCount js : Int) := by
  simpa [pointsTotals] using pointsTotalsAux_sum js (0, 0)

/-! ## Lemmas about the JS-object store operations -/

theorem objGet_objSet_self {α : Type} (m : List (String × α)) (k : String)
    (v : α) : objGet (objSet m k v) k = some v := by
  induction m with
  | nil => simp [objGet, objSet]
  | cons p rest ih =>
    obtain ⟨k', v'⟩ := p
    by_cases h : k' = k
    · subst h; simp [objGet, objSet]
    · simp [objGet, objSet, h, ih]

theorem objGet_objDelete_self {α : Type} (m : List (String × α)) (k : String) :
    objGet (objDelete m k) k = none := by
  induction m with
  | nil => simp [objGet, objDelete]
  | cons p rest ih =>
    obtain ⟨k', v⟩ := p
    by_cases h : k' = k
    · simpa [objDelete, List.filter_cons, h] using ih
    · simpa [objDelete, List.filter_cons, h, objGet] using ih

theorem objGet_objDelete_ne {α : Type} (m : List (String × α)) {j k : String}
    (h : j ≠ k) : objGet (objDelete m k) j = objGet m j := by
  induction m with
  | nil => simp [objGet, objDelete]
  | cons p rest ih =>
    obtain ⟨k', v⟩ := p
    by_cases hk : k' = k
    · subst hk
      have hkj : ¬(k' = j) := fun hh => h hh.symm
      simpa [objDelete, List.filter_cons, objGet, hkj] using ih
    · by_cases hj : k' = j
      · subst hj
        simp [objDelete, List.filter_cons, objGet, hk]
      · simpa [objDelete, List.filter_cons, objGet, hk, hj] using ih

/-! ## Concrete fixtures

Builders for concrete scorecards, records and requests used by the
counterexamples and witnesses below.  Matches are between the Challonge
participants `101` (competitor A) and `202` (competitor B) of tournament
`"t1"`, the default criteria being Aggression 3 / Damage 5 / Control 3
(match point budget 11). -/

/-- A point-split scorecard entry giving competitor A the shares
`(a, d, c)`. -/
def splitCard (a d c : Int) (t : Nat) : JudgeCard :=
  { scores := some { aggression := a, damage := d, control := c },
    isKO := false, koWinnerId := none, submittedAt := t }

/-- A KO scorecard entry naming `w` as KO winner. -/
def koCard (w : Int) (t : Nat) : JudgeCard :=
  { scores := none, isKO := true, koWinnerId := some w, submittedAt := t }

/-- A record for the match between competitors 101 and 202. -/
def mkRecord (js : List (String × JudgeCard)) (f : Bool)
    (res : Option MatchResult) : MatchRecord :=
  { tournamentId := "t1", competitorAId := 101, competitorBId := 202,
    judges := js, finalized := f, result := res }

/-- A submission request body for the same match. -/
def mkReq (j : String) (sc : Option Scores) (ko : Bool) (kw : Option Int) :
    SubmitReq :=
  { judgeId := j, tournamentId := "t1", competitorAId := 101,
    competitorBId := 202, scores := sc, isKO := ko, koWinnerId := kw }

/-! ## Claim C1: KO majority decides the match -/

/-- Claim C1: For every set of 3 submitted scorecards in which at least 2
scorecards declare a KO for the same competitor `w` (a KO vote being one the
code counts: `isKO` with a truthy `koWinnerId`), `calculateMatchResult`
returns win method `ko`, winner `w`, and `koVotes` equal to the tally of KO
votes for `w` — regardless of the content of the remaining scorecard. -/
theorem ko_majority_decides_match (m : MatchRecord) (w : Int)
    (h3 : (judgeCards m).length = 3)
    (hv : 2 ≤ voteCount (judgeCards m) w) :
    calculateMatchResult m =
      { winnerId := w, winMethod := "ko", scoreA := 0, scoreB := 0,
        koVotes := some (voteCount (judgeCards m) w) } := by
  unfold calculateMatchResult
  rw [findKoMajority_of_majority (judgeCards m) w h3 hv]

def c1Record : MatchRecord :=
  mkRecord [("judge_1", koCard 202 1), ("judge_2", splitCard 2 3 2 2),
    ("judge_3", koCard 202 3)] false none

/-- Witness for C1: judges 1 and 3 declare KO for competitor 202 while
judge 2 submits a point split; the match is decided `ko` for 202 with 2
votes. -/
theorem ko_majority_decides_match_witness :
    (judgeCards c1Record).length = 3 ∧
    2 ≤ voteCount (judgeCards c1Record) 202 ∧
    calculateMatchResult c1Record =
      { winnerId := 202, winMethod := "ko", scoreA := 0, scoreB := 0,
        koVotes := some (voteCount (judgeCards c1Record) 202) } :=
  ⟨by decide, by decide,
   ko_majority_decides_match c1Record 202 (by decide) (by decide)⟩

/-! ## Claim C3: the score attached to a KO decision -/

def c3Record : MatchRecord :=
  mkRecord [("judge_1", koCard 101 1), ("judge_2", koCard 101 2),
    ("judge_3", splitCard 2 3 2 3)] false none

/-- Claim C3 counterexample: A match decided by KO majority for competitor A
(101) carries `scoreA = 0`, not the claimed full budget × 3 (= 33): the code
returns `scoreA: 0, scoreB: 0` on the KO branch. -/
theorem ko_winner_score_not_triple_budget :
    calculateMatchResult c3Record =
      { winnerId := 101, winMethod := "ko", scoreA := 0, scoreB := 0,
        koVotes := some 2 } ∧
    c3Record.competitorAId = 101 ∧
    (calculateMatchResult c3Record).scoreA ≠ 33 := by decide

/-- Claim C3, amended: For every match decided by KO majority the computed
result carries `winMethod = "ko"` and `scoreA = scoreB = 0` — the winner is
identified by `winnerId` only, and neither competitor is awarded the
33-point budget. -/
theorem ko_result_scores_are_zero (m : MatchRecord) (w : Int) (v : Nat)
    (h : findKoMajority (koTally (judgeCards m)) = some (w, v)) :
    calculateMatchResult m =
      { winnerId := w, winMethod := "ko", scoreA := 0, scoreB := 0,
        koVotes := some v } := by
  unfold calculateMatchResult
  rw [h]

def c3bRecord : MatchRecord :=
  mkRecord [("judge_1", koCard 202 1), ("judge_2", koCard 202 2),
    ("judge_3", koCard 202 3)] false none

/-- Witness for the amended C3: a unanimous KO for 202 yields the 0-0 `ko`
result. -/
theorem ko_result_scores_are_zero_witness :
    findKoMajority (koTally (judgeCards c3bRecord)) = some (202, 3) ∧
    calculateMatchResult c3bRecord =
      { winnerId := 202, winMethod := "ko", scoreA := 0, scoreB := 0,
        koVotes := some 3 } :=
  ⟨by decide, ko_result_scores_are_zero c3bRecord 202 3 (by decide)⟩

/-! ## Claim C4: the points-sum invariant -/

def c4Record : MatchRecord :=
  mkRecord [("judge_1", koCard 101 1), ("judge_2", koCard 202 2),
    ("judge_3", splitCard 2 3 2 3)] false none

/-- Claim C4 counterexample: 3 scorecards with a 1-1 KO split fall through to
the points rule, but only the single point-split scorecard contributes:
the scores sum to 11, not the claimed 33. -/
theorem points_sum_not_triple_budget :
    (judgeCards c4Record).length = 3 ∧
    findKoMajority (koTally (judgeCards c4Record)) = none ∧
    (calculateMatchResult c4Record).winMethod = "points" ∧
    (calculateMatchResult c4Record).scoreA +
      (calculateMatchResult c4Record).scoreB = 11 ∧
    (calculateMatchResult c4Record).scoreA +
      (calculateMatchResult c4Record).scoreB ≠ 33 := by decide

/-- Claim C4, amended: For every set of scorecards resolved by points (no KO
majority), `scoreA + scoreB` equals 11 × the number of scorecards carrying a
point split — which is 33 only when all 3 scorecards are point splits; KO
scorecards without a majority contribute 0 to both totals. -/
theorem points_sum_eq_budget_times_scored (m : MatchRecord)
    (h : findKoMajority (koTally (judgeCards m)) = none) :
    (calculateMatchResult m).scoreA + (calculateMatchResult m).scoreB =
      11 * (scoredCount (judgeCards m) : Int) := by
  unfold calculateMatchResult
  rw [h]
  simpa using pointsTotals_sum (judgeCards m)

def c4bRecord : MatchRecord :=
  mkRecord [("judge_1", splitCard 2 3 2 1), ("judge_2", splitCard 1 4 1 2),
    ("judge_3", splitCard 2 2 2 3)] false none

/-- Witness for the amended C4: three point splits sum to 11 × 3 = 33
(the 19-14 scenario). -/
theorem points_sum_eq_budget_times_scored_witness :
    findKoMajority (koTally (judgeCards c4bRecord)) = none ∧
    (calculateMatchResult c4bRecord).scoreA +
        (calculateMatchResult c4bRecord).scoreB =
      11 * (scoredCount (judgeCards c4bRecord) : Int) :=
  ⟨by decide, points_sum_eq_budget_times_scored c4bRecord (by decide)⟩

/-! ## Claim C5: winner selection under the points rule -/

def c5Record : MatchRecord :=
  mkRecord [("judge_1", splitCard 3 3 1 1), ("judge_2", splitCard 1 2 1 2),
    ("judge_3", koCard 101 3)] false none

/-- Claim C5 counterexample: A tied points resolution (11-11, reachable with a
non-majority KO scorecard among the 3) is not surfaced as an error or a
defined tie outcome: competitor B (202) is returned as a plain `points`
winner. -/
theorem tie_returns_competitorB_as_winner :
    findKoMajority (koTally (judgeCards c5Record)) = none ∧
    pointsTotals (judgeCards c5Record) = (11, 11) ∧
    calculateMatchResult c5Record =
      { winnerId := 202, winMethod := "points", scoreA := 11, scoreB := 11,
        koVotes := none } ∧
    (calculateMatchResult c5Record).winnerId = c5Record.competitorBId := by
  decide

/-- Claim C5, amended: When the Resolver decides by points, the winner is
competitor A exactly when A's total is strictly higher; on equal (or lower)
totals competitor B is returned as winner — equal totals produce no error or
tie outcome. -/
theorem points_winner_by_strict_comparison (m : MatchRecord)
    (h : findKoMajority (koTally (judgeCards m)) = none) :
    (calculateMatchResult m).winMethod = "points" ∧
    ((pointsTotals (judgeCards m)).2 < (pointsTotals (judgeCards m)).1 →
      (calculateMatchResult m).winnerId = m.competitorAId) ∧
    ((pointsTotals (judgeCards m)).1 ≤ (pointsTotals (judgeCards m)).2 →
      (calculateMatchResult m).winnerId = m.competitorBId) := by
  unfold calculateMatchResult
  rw [h]
  refine ⟨rfl, ?_, ?_⟩
  · intro hgt
    simp [hgt]
  · intro hle
    have hngt : ¬((pointsTotals (judgeCards m)).2 <
        (pointsTotals (judgeCards m)).1) := not_lt.mpr hle
    simp [hngt]

/-- Witness for the amended C5 at the tied fixture: the ≤ branch names
competitor B. -/
theorem points_winner_by_strict_comparison_witness :
    findKoMajority (koTally (judgeCards c5Record)) = none ∧
    ((calculateMatchResult c5Record).winMethod = "points" ∧
     ((pointsTotals (judgeCards c5Record)).2 <
         (pointsTotals (judgeCards c5Record)).1 →
       (calculateMatchResult c5Record).winnerId = c5Record.competitorAId) ∧
     ((pointsTotals (judgeCards c5Record)).1 ≤
         (pointsTotals (judgeCards c5Record)).2 →
       (calculateMatchResult c5Record).winnerId = c5Record.competitorBId)) :=
  ⟨by decide, points_winner_by_strict_comparison c5Record (by decide)⟩

/-! ## Claim C2: submission against a finalized match -/

def c2Result : MatchResult :=
  { winnerId := 101, winMethod := "points", scoreA := 19, scoreB := 14,
    koVotes := none }

def c2Judges : List (String × JudgeCard) :=
  [("judge_1", splitCard 2 3 2 1), ("judge_2", splitCard 1 4 1 2),
   ("judge_3", splitCard 2 2 2 3)]

def c2Record : MatchRecord := mkRecord c2Judges true (some c2Result)

def c2Req : SubmitReq := mkReq "judge_1" none true (some 202)

def c2NewCard : JudgeCard :=
  { scores := none, isKO := true, koWinnerId := some 202, submittedAt := 9 }

/-- Claim C2, code bug: A submission against a finalized match is not
rejected with `AlreadyFinalized`: both route variants answer 200
`{ success:true, finalized:false, message:"Waiting for 0 more judge(s)" }`
and silently overwrite the judge's stored entry (the result and the
finalized flag are left intact, but the stored scorecards no longer match
the finalized result). -/
theorem submit_after_finalize_accepted_and_overwrites :
    (submitScoreMem [("m1", c2Record)] "m1" c2Req 9 true).2 =
      SubmitResp.ok 3 false none ∧
    (submitScoreDb [("m1", c2Record)] "m1" c2Req 9 true).2 =
      SubmitResp.ok 3 false none ∧
    (objGet (submitScoreMem [("m1", c2Record)] "m1" c2Req 9 true).1 "m1").map
        (fun r => (r.finalized, r.result, objGet r.judges "judge_1")) =
      some (true, some c2Result, some c2NewCard) ∧
    objGet c2Record.judges "judge_1" = some (splitCard 2 3 2 1) ∧
    c2NewCard ≠ splitCard 2 3 2 1 := by decide

/-! ## Claim C6: a failed upstream report during the 3rd submission -/

def c6Record : MatchRecord :=
  mkRecord [("judge_1", splitCard 2 3 2 1), ("judge_2", splitCard 1 4 1 2)]
    false none

def c6Req : SubmitReq :=
  mkReq "judge_3" (some { aggression := 2, damage := 2, control := 2 })
    false none

/-- Claim C6 counterexample: PostgreSQL variant: when `reportToChallonge`
throws on the 3rd submission, the row save is skipped, so the stored record
still holds only the first 2 scorecards — the 3rd submission's scorecard is
not in the record, contradicting the claim that the record then contains all
3 submitted scorecards. -/
theorem report_failure_db_drops_third_card :
    (submitScoreDb [("m1", c6Record)] "m1" c6Req 5 false).2 =
      SubmitResp.serverError ∧
    objGet (submitScoreDb [("m1", c6Record)] "m1" c6Req 5 false).1 "m1" =
      some c6Record ∧
    c6Record.judges.length = 2 ∧
    objGet c6Record.judges "judge_3" = none := by decide

/-- Claim C6, amended: If the upstream report fails during the 3rd
submission, the error is propagated (500) and in neither variant is the
record marked finalized; the in-memory variant keeps all 3 scorecards in the
stored record, while the PostgreSQL variant leaves the stored row unchanged,
so the 3rd scorecard is not persisted there. -/
theorem report_failure_leaves_unfinalized (store : Store) (matchId : String)
    (req : SubmitReq) (now : Nat) (r : MatchRecord)
    (hget : objGet store matchId = some r)
    (hfin : r.finalized = false)
    (hcnt : 3 ≤ (upsertJudge r req now).judges.length) :
    submitScoreMem store matchId req now false =
      (objSet store matchId (upsertJudge r req now), SubmitResp.serverError) ∧
    (upsertJudge r req now).finalized = false ∧
    submitScoreDb store matchId req now false =
      (store, SubmitResp.serverError) := by
  have hfin' : (upsertJudge r req now).finalized = false := hfin
  refine ⟨?_, hfin', ?_⟩
  · simp only [submitScoreMem, hget, Option.getD_some]
    rw [if_pos ⟨hcnt, hfin'⟩]
    simp
  · simp only [submitScoreDb, hget, Option.getD_some]
    rw [if_pos ⟨hcnt, hfin'⟩]
    simp

/-- Witness for the amended C6: on the in-memory store, a failed report on
judge 3's submission answers 500 and leaves the 3-scorecard record
un-finalized. -/
theorem report_failure_leaves_unfinalized_witness :
    (objGet [("m1", c6Record)] "m1" = some c6Record ∧
     c6Record.finalized = false ∧
     3 ≤ (upsertJudge c6Record c6Req 5).judges.length) ∧
    submitScoreMem [("m1", c6Record)] "m1" c6Req 5 false =
      (objSet [("m1", c6Record)] "m1" (upsertJudge c6Record c6Req 5),
       SubmitResp.serverError) :=
  ⟨⟨by decide, by decide, by decide⟩,
   (report_failure_leaves_unfinalized [("m1", c6Record)] "m1" c6Req 5
     c6Record (by decide) (by decide) (by decide)).1⟩

/-! ## Claim C7: input validation on submission -/

def c7Req : SubmitReq := mkReq "judge_9" none true none

def c7Card : JudgeCard :=
  { scores := none, isKO := true, koWinnerId := none, submittedAt := 1 }

/-- Claim C7 counterexample: A malformed submission — unrecognized judgeId
`"judge_9"`, a KO declaration without a named winner, and no point split —
is not rejected with a validation error: it is accepted with a success
response and written to the store as a judge entry. -/
theorem malformed_submission_accepted :
    (submitScoreMem [] "m1" c7Req 1 true).2 = SubmitResp.ok 1 false none ∧
    (submitScoreMem [] "m1" c7Req 1 true).1 =
      [("m1", upsertJudge (freshRecord c7Req) c7Req 1)] ∧
    objGet (upsertJudge (freshRecord c7Req) c7Req 1).judges "judge_9" =
      some c7Card := by decide

/-- Claim C7, amended: `submit_scorecard` performs no input validation at
all: every request against a match with no record yet — whatever its
judgeId, point split or KO fields — is accepted, stored as a judge entry
counting toward the 3-judge total, and answered with success. -/
theorem submission_not_validated (store : Store) (matchId : String)
    (req : SubmitReq) (now : Nat) (reportOk : Bool)
    (h : objGet store matchId = none) :
    submitScoreMem store matchId req now reportOk =
      (objSet store matchId (upsertJudge (freshRecord req) req now),
       SubmitResp.ok 1 false none) := by
  have hlen : (upsertJudge (freshRecord req) req now).judges.length = 1 := by
    simp [upsertJudge, freshRecord, objSet]
  simp only [submitScoreMem, h, Option.getD_none]
  rw [if_neg]
  · rw [hlen]
  · intro hc
    rw [hlen] at hc
    omega

/-- Witness for the amended C7 at the malformed request. -/
theorem submission_not_validated_witness :
    objGet ([] : Store) "m1" = none ∧
    submitScoreMem [] "m1" c7Req 1 true =
      (objSet [] "m1" (upsertJudge (freshRecord c7Req) c7Req 1),
       SubmitResp.ok 1 false none) :=
  ⟨rfl, submission_not_validated [] "m1" c7Req 1 true rfl⟩

/-! ## Claim C9: frame of a successful delete -/

/-- Claim C9: Deleting a present judge entry from a non-finalized record
answers success and stores the record with exactly that entry removed: the
deleted judgeId no longer resolves, every other judgeId resolves to its old
entry, and the tournament id, both competitor references, the finalized flag
and the result field are unchanged. -/
theorem delete_removes_exactly_one_entry (store : Store)
    (matchId judgeId : String) (r : MatchRecord) (c : JudgeCard)
    (hget : objGet store matchId = some r)
    (hfin : r.finalized = false)
    (hj : objGet r.judges judgeId = some c) :
    deleteScore store matchId judgeId =
      (objSet store matchId { r with judges := objDelete r.judges judgeId },
       DeleteResp.ok) ∧
    objGet (objDelete r.judges judgeId) judgeId = none ∧
    (∀ j, j ≠ judgeId →
      objGet (objDelete r.judges judgeId) j = objGet r.judges j) ∧
    ({ r with judges := objDelete r.judges judgeId } : MatchRecord).tournamentId
        = r.tournamentId ∧
    ({ r with judges := objDelete r.judges judgeId } : MatchRecord).competitorAId
        = r.competitorAId ∧
    ({ r with judges := objDelete r.judges judgeId } : MatchRecord).competitorBId
        = r.competitorBId ∧
    ({ r with judges := objDelete r.judges judgeId } : MatchRecord).finalized
        = r.finalized ∧
    ({ r with judges := objDelete r.judges judgeId } : MatchRecord).result
        = r.result := by
  refine ⟨?_, objGet_objDelete_self _ _,
    fun j hj' => objGet_objDelete_ne _ hj', rfl, rfl, rfl, rfl, rfl⟩
  simp only [deleteScore, hget, hfin, hj]
  simp

def c9Record : MatchRecord :=
  mkRecord [("judge_1", splitCard 2 3 2 1), ("judge_2", koCard 202 2)]
    false none

def c9Store : Store := [("m1", c9Record)]

/-- Witness for C9: deleting judge 2's scorecard from a 2-judge record. -/
theorem delete_removes_exactly_one_entry_witness :
    (objGet c9Store "m1" = some c9Record ∧ c9Record.finalized = false ∧
     objGet c9Record.judges "judge_2" = some (koCard 202 2)) ∧
    deleteScore c9Store "m1" "judge_2" =
      (objSet c9Store "m1"
        { c9Record with judges := objDelete c9Record.judges "judge_2" },
       DeleteResp.ok) :=
  ⟨⟨by decide, by decide, by decide⟩,
   (delete_removes_exactly_one_entry c9Store "m1" "judge_2" c9Record
     (koCard 202 2) (by decide) (by decide) (by decide)).1⟩

/-! ## Claim C10: identity fields are fixed by the creating submission -/

/-- Claim C10: Once a Match Scoring Record exists, every later submission —
whatever tournament id and competitor references its own payload carries, and
on every branch (pending, finalizing, failed report) of both route
variants — stores a record with the original tournament id and competitor
references. -/
theorem identity_fields_fixed_at_creation (store : Store) (matchId : String)
    (req : SubmitReq) (now : Nat) (reportOk : Bool) (r : MatchRecord)
    (hget : objGet store matchId = some r) :
    (∃ r1, objGet (submitScoreMem store matchId req now reportOk).1 matchId
        = some r1 ∧
      r1.tournamentId = r.tournamentId ∧
      r1.competitorAId = r.competitorAId ∧
      r1.competitorBId = r.competitorBId) ∧
    (∃ r2, objGet (submitScoreDb store matchId req now reportOk).1 matchId
        = some r2 ∧
      r2.tournamentId = r.tournamentId ∧
      r2.competitorAId = r.competitorAId ∧
      r2.competitorBId = r.competitorBId) := by
  constructor
  · simp only [submitScoreMem, hget, Option.getD_some]
    split_ifs with h1 h2
    · exact ⟨_, objGet_objSet_self _ _ _, rfl, rfl, rfl⟩
    · exact ⟨_, objGet_objSet_self _ _ _, rfl, rfl, rfl⟩
    · exact ⟨_, objGet_objSet_self _ _ _, rfl, rfl, rfl⟩
  · simp only [submitScoreDb, hget, Option.getD_some]
    split_ifs with h1 h2
    · exact ⟨_, objGet_objSet_self _ _ _, rfl, rfl, rfl⟩
    · exact ⟨r, hget, rfl, rfl, rfl⟩
    · exact ⟨_, objGet_objSet_self _ _ _, rfl, rfl, rfl⟩

def c10Record : MatchRecord :=
  mkRecord [("judge_1", splitCard 2 3 2 1)] false none

/-- A 2nd-judge submission whose payload carries a different tournament id
and different competitor references than the stored record. -/
def c10Req : SubmitReq :=
  { judgeId := "judge_2", tournamentId := "OTHER", competitorAId := 999,
    competitorBId := 888,
    scores := some { aggression := 1, damage := 4, control := 1 },
    isKO := false, koWinnerId := none }

/-- Witness for C10: the stored record keeps `"t1"`, 101 and 202 even though
the payload carried `"OTHER"`, 999 and 888. -/
theorem identity_fields_fixed_at_creation_witness :
    objGet [("m1", c10Record)] "m1" = some c10Record ∧
    (∃ r1, objGet
        (submitScoreMem [("m1", c10Record)] "m1" c10Req 7 true).1 "m1"
        = some r1 ∧
      r1.tournamentId = c10Record.tournamentId ∧
      r1.competitorAId = c10Record.competitorAId ∧
      r1.competitorBId = c10Record.competitorBId) :=
  ⟨by decide,
   (identity_fields_fixed_at_creation [("m1", c10Record)] "m1" c10Req 7 true
     c10Record (by decide)).1⟩

/-! ## Claim C8: concurrent submission of the 2nd and 3rd scorecards -/

def c8Record : MatchRecord :=
  mkRecord [("judge_1", splitCard 2 3 2 1)] false none

def c8ReqA : SubmitReq :=
  mkReq "judge_2" (some { aggression := 1, damage := 4, control := 1 })
    false none

def c8ReqB : SubmitReq :=
  mkReq "judge_3" (some { aggression := 2, damage := 2, control := 2 })
    false none

/-- Judge 1 has submitted; judges 2 and 3 submit concurrently (both their
reports would succeed if issued). -/
def c8Init : ConcSys :=
  { store := [("m1", c8Record)], matchId := "m1", reqA := c8ReqA,
    reqB := c8ReqB, nowA := 5, nowB := 6, reportOkA := true,
    reportOkB := true, phaseA := Phase.toLoad, phaseB := Phase.toLoad,
    reportCalls := 0, finalizedResponses := 0 }

/-- The interleaving: A loads, B loads (both see 1 scorecard), A saves,
B saves. -/
def c8Final : ConcSys := runSched c8Init [true, false, true, false]

/-- Claim C8, code bug: Under the interleaved schedule both submissions
complete with success responses, yet zero `finalized:true` responses and
zero upstream report calls are produced — and judge 2's scorecard is lost
(the final record holds only judges 1 and 3), so the claimed
"exactly one finalize and one report, never zero" fails. -/
theorem concurrent_submissions_drop_vote :
    c8Final.phaseA = Phase.finished (SubmitResp.ok 2 false none) ∧
    c8Final.phaseB = Phase.finished (SubmitResp.ok 2 false none) ∧
    c8Final.reportCalls = 0 ∧
    c8Final.finalizedResponses = 0 ∧
    (objGet c8Final.store "m1").map
        (fun r => (r.judges.length, objGet r.judges "judge_2",
          (objGet r.judges "judge_3").isSome)) =
      some (2, none, true) := by decide

end ScarJudging
